import Mathlib

/-!
Verification of the alignment-and-valuation pipeline of
src/app/services/analyze_quotes.py.

The pandas data model is embedded shallowly:

* a cell of a numeric column is a value of type Option Rat, where none
  plays the role of the missing value NaN (a comparison against NaN is
  false, and arithmetic on NaN yields NaN);
* a column is a list of cells, a data frame is an association list from
  column names to columns, in column order;
* the element-wise numpy select chains become nested if-then-else on a
  single cell, with the same condition order and the same default;
* dates are integers (any totally ordered, decidable key works for the
  as-of join);
* pandas division of a nonzero rational by zero yields a non-finite
  float, which has no counterpart in Rat; optDiv returns none in that
  case.  No settled statement below evaluates a division at a zero
  denominator: the one place where it matters (the leverage adjustment)
  is proved to have a denominator bounded away from zero.
-/

namespace AnalyzeQuotes

/-- A cell of a pandas numeric column: some q is a number, none is NaN. -/
abbrev Val := Option ℚ

/-- A pandas column. -/
abbrev Col := List Val

/-- A pandas data frame: named columns in column order. -/
abbrev Frame := List (String × Col)

/-- NaN-propagating addition of two cells. -/
def optAdd : Val → Val → Val
  | some a, some b => some (a + b)
  | _, _ => none

/-- NaN-propagating multiplication of two cells. -/
def optMul : Val → Val → Val
  | some a, some b => some (a * b)
  | _, _ => none

/-- NaN-propagating division of two cells.  A zero denominator is mapped
to the undefined marker (pandas would produce a non-finite float, which
Rat cannot represent; no settled claim evaluates this case). -/
def optDiv : Val → Val → Val
  | some a, some b => if b = 0 then none else some (a / b)
  | _, _ => none

/-- Element-wise core of IndicatorCalculator._limit_ROA_value
(analyze_quotes.py lines 95-100): np.select([ROA >= 0.3], [0.3],
default=ROA).  On a NaN input the condition is false and the default is
the NaN itself. -/
def roaCapRow (roa : Val) : Val :=
  match roa with
  | none => none
  | some r => if r ≥ 0.3 then some 0.3 else some r

/-- Element-wise core of IndicatorCalculator._set_discount_rate
(analyze_quotes.py lines 102-114): the np.select ladder on
EquityToAssetRatio, first matching condition wins, default NaN. -/
def discountRateRow (ratio : Val) : Val :=
  match ratio with
  | none => none
  | some x =>
    if x ≥ 0.8 then some 0.8
    else if x ≥ 0.67 ∧ x < 0.8 then some 0.75
    else if x ≥ 0.5 ∧ x < 0.67 then some 0.7
    else if x ≥ 0.33 ∧ x < 0.5 then some 0.65
    else if x ≥ 0.1 ∧ x < 0.33 then some 0.6
    else if x < 0.1 then some 0.5
    else none

/-- Element-wise core of IndicatorCalculator._set_risk_assessment_rate
(analyze_quotes.py lines 131-144): the np.select ladder on PBR, first
matching condition wins, default NaN.  The conditions leave the gaps
[0.20, 0.21), [0.33, 0.34), [0.40, 0.41) and [0.49, 0.50) uncovered, so
those inputs fall through to the default. -/
def riskAssessmentRateRow (pbr : Val) : Val :=
  match pbr with
  | none => none
  | some p =>
    if p ≥ 0.5 then some 1
    else if p ≥ 0.41 ∧ p < 0.49 then some 0.8
    else if p ≥ 0.34 ∧ p < 0.40 then some 0.66
    else if p ≥ 0.25 ∧ p < 0.33 then some 0.50
    else if p ≥ 0.21 ∧ p < 0.25 then some 0.33
    else if p ≥ 0.04 ∧ p < 0.20 then some 0.15
    else if p < 0.04 then some 0.02
    else none

/-- Element-wise core of the np.select clamp inside
IndicatorCalculator._set_financial_leverage_adjustment
(analyze_quotes.py lines 120-126): conditions [t <= 0.66, t >= 1.00],
choices [0.66, 1.00], default t. -/
def clampTempValueRow (t : Val) : Val :=
  match t with
  | none => none
  | some x =>
    if x ≤ 0.66 then some 0.66
    else if x ≥ 1.00 then some 1.00
    else some x

/-- Element-wise core of IndicatorCalculator._set_business_value
(analyze_quotes.py lines 151-161): ForecastProfit / latest
AverageNumberOfShares * ROA * 150 * FinancialLeverageAdjustment, with
the series-wide latest share count passed in as a scalar.  Note the
source multiplies by the raw ROA column, not by ROA_Capped. -/
def businessValueRow (latestShares fp roa fla : Val) : Val :=
  optMul (optMul (optMul (optDiv fp latestShares) roa) (some 150)) fla

/-- The business-value formula as the specification words it: identical
to businessValueRow except that the ROA factor is first passed through
the cap of roaCapRow.  Kept separate so it can be compared with the
definition translated from the source. -/
def businessValueClaimRow (latestShares fp roa fla : Val) : Val :=
  optMul (optMul (optMul (optDiv fp latestShares) (roaCapRow roa)) (some 150)) fla

end AnalyzeQuotes

namespace AnalyzeQuotes

/-- C1: the source computes the business value from the raw ROA, while
the specification requires the capped ROA.  At a row with
ForecastProfit 100, latest share count 10, ROA 0.5 and leverage
adjustment 1, the code yields 750 whereas the specified formula with
the cap at 0.3 yields 450; the cap itself maps 0.5 to 0.3. -/
theorem business_value_uses_uncapped_ROA :
    businessValueRow (some 10) (some 100) (some 0.5) (some 1) = some 750 ∧
    businessValueClaimRow (some 10) (some 100) (some 0.5) (some 1) = some 450 ∧
    roaCapRow (some 0.5) = some 0.3 ∧
    businessValueRow (some 10) (some 100) (some 0.5) (some 1) ≠
      businessValueClaimRow (some 10) (some 100) (some 0.5) (some 1) := by
  refine ⟨?_, ?_, ?_, ?_⟩ <;> norm_num [businessValueRow, businessValueClaimRow,
    roaCapRow, optMul, optDiv]

/-- C2: the risk assessment rate is the tier value of the bucket
containing PBR, and every PBR in one of the four uncovered gaps yields
the undefined marker, never a neighboring tier value. -/
theorem risk_assessment_rate_buckets (p : ℚ) :
    (p ≥ 0.5 → riskAssessmentRateRow (some p) = some 1) ∧
    (p ≥ 0.41 ∧ p < 0.49 → riskAssessmentRateRow (some p) = some 0.8) ∧
    (p ≥ 0.34 ∧ p < 0.40 → riskAssessmentRateRow (some p) = some 0.66) ∧
    (p ≥ 0.25 ∧ p < 0.33 → riskAssessmentRateRow (some p) = some 0.50) ∧
    (p ≥ 0.21 ∧ p < 0.25 → riskAssessmentRateRow (some p) = some 0.33) ∧
    (p ≥ 0.04 ∧ p < 0.20 → riskAssessmentRateRow (some p) = some 0.15) ∧
    (p < 0.04 → riskAssessmentRateRow (some p) = some 0.02) ∧
    (p ≥ 0.20 ∧ p < 0.21 → riskAssessmentRateRow (some p) = none) ∧
    (p ≥ 0.33 ∧ p < 0.34 → riskAssessmentRateRow (some p) = none) ∧
    (p ≥ 0.40 ∧ p < 0.41 → riskAssessmentRateRow (some p) = none) ∧
    (p ≥ 0.49 ∧ p < 0.50 → riskAssessmentRateRow (some p) = none) := by
  refine ⟨fun h => ?_, fun h => ?_, fun h => ?_, fun h => ?_, fun h => ?_, fun h => ?_,
    fun h => ?_, fun h => ?_, fun h => ?_, fun h => ?_, fun h => ?_⟩ <;>
  · simp only [riskAssessmentRateRow]
    split_ifs with h1 h2 h3 h4 h5 h6 h7 <;>
      first
        | rfl
        | exact absurd h (by assumption)
        | (exfalso
           try obtain ⟨hA, hB⟩ := h
           try obtain ⟨hC1, hD1⟩ := h2
           try obtain ⟨hC2, hD2⟩ := h3
           try obtain ⟨hC3, hD3⟩ := h4
           try obtain ⟨hC4, hD4⟩ := h5
           try obtain ⟨hC5, hD5⟩ := h6
           linarith)

/-- Witness for C2: PBR 0.405 lies in the uncovered gap [0.40, 0.41)
and yields the undefined marker, while PBR 0.45 lies in the
[0.41, 0.49) bucket and yields 0.8. -/
theorem risk_assessment_rate_buckets_witness :
    riskAssessmentRateRow (some (0.405 : ℚ)) = none ∧
    riskAssessmentRateRow (some (0.45 : ℚ)) = some 0.8 :=
  ⟨(risk_assessment_rate_buckets 0.405).2.2.2.2.2.2.2.2.2.1 ⟨by norm_num, by norm_num⟩,
   (risk_assessment_rate_buckets 0.45).2.1 ⟨by norm_num, by norm_num⟩⟩

/-- C8: the financial leverage adjustment equals one over the clamp of
EquityToAssetRatio + 0.33 into the interval [0.66, 1.00]: the value
computed by the TempValue np.select chain is exactly
max 0.66 (min 1 (ratio + 0.33)), and the adjustment is its inverse. -/
theorem financial_leverage_adjustment_eq_inv_clamp (r : ℚ) :
    clampTempValueRow (optAdd (some r) (some 0.33)) =
      some (max 0.66 (min 1 (r + 0.33))) ∧
    optDiv (some 1) (clampTempValueRow (optAdd (some r) (some 0.33))) =
      some (1 / max 0.66 (min 1 (r + 0.33))) := by
  have hclamp : clampTempValueRow (optAdd (some r) (some 0.33)) =
      some (max 0.66 (min 1 (r + 0.33))) := by
    simp only [optAdd, clampTempValueRow]
    split_ifs with h1 h2
    · rw [max_eq_left]
      have : min 1 (r + 0.33) ≤ r + 0.33 := min_le_right _ _
      linarith
    · rw [min_eq_left (by linarith), max_eq_right (by linarith)]
      norm_num
    · rw [min_eq_right (by linarith), max_eq_right (by linarith)]
  refine ⟨hclamp, ?_⟩
  rw [hclamp]
  simp only [optDiv]
  rw [if_neg]
  have h66 : (0.66 : ℚ) ≤ max 0.66 (min 1 (r + 0.33)) := le_max_left _ _
  intro h
  rw [h] at h66
  norm_num at h66

/-- C10: for a present, non-negative EquityToAssetRatio the clamped
denominator lies in [0.66, 1.00], so the leverage adjustment is defined
(no division by zero) and lies in [1, 1/0.66]. -/
theorem financial_leverage_adjustment_bounds (r : ℚ) (h : 0 ≤ r) :
    ∃ t a : ℚ,
      clampTempValueRow (optAdd (some r) (some 0.33)) = some t ∧
      0.66 ≤ t ∧ t ≤ 1 ∧
      optDiv (some 1) (clampTempValueRow (optAdd (some r) (some 0.33))) = some a ∧
      1 ≤ a ∧ a ≤ 1 / 0.66 := by
  obtain ⟨hc, hd⟩ := financial_leverage_adjustment_eq_inv_clamp r
  set t := max 0.66 (min 1 (r + 0.33)) with ht
  have h1 : (0.66 : ℚ) ≤ t := le_max_left _ _
  have h2 : t ≤ 1 := by
    rw [ht]
    rcases max_cases (0.66 : ℚ) (min 1 (r + 0.33)) with ⟨he, _⟩ | ⟨he, _⟩
    · rw [he]; norm_num
    · rw [he]; exact min_le_left _ _
  have hpos : (0 : ℚ) < t := lt_of_lt_of_le (by norm_num) h1
  refine ⟨t, 1 / t, hc, h1, h2, hd, ?_, ?_⟩
  · rw [le_div_iff₀ hpos]; linarith
  · have : (0 : ℚ) < 0.66 := by norm_num
    exact one_div_le_one_div_of_le this h1

/-- Witness for C10: at EquityToAssetRatio 0.5 the hypothesis holds and
the bounds are realized. -/
theorem financial_leverage_adjustment_bounds_witness :
    (0 : ℚ) ≤ 0.5 ∧
    ∃ t a : ℚ,
      clampTempValueRow (optAdd (some (0.5 : ℚ)) (some 0.33)) = some t ∧
      0.66 ≤ t ∧ t ≤ 1 ∧
      optDiv (some 1) (clampTempValueRow (optAdd (some (0.5 : ℚ)) (some 0.33))) = some a ∧
      1 ≤ a ∧ a ≤ 1 / 0.66 :=
  ⟨by norm_num, financial_leverage_adjustment_bounds 0.5 (by norm_num)⟩

end AnalyzeQuotes

namespace AnalyzeQuotes

/-- Stable ascending sort by an integer key, modelling
pandas.DataFrame.sort_values on a date column (analyze_quotes.py lines
326 and 329).  Mathlib insertion sort is used as the sorting algorithm;
only sortedness and permutation of the result matter. -/
def sortByDate {α : Type} (key : α → Int) (l : List α) : List α :=
  List.insertionSort (fun a b => key a ≤ key b) l

/-- The backward as-of lookup underlying pd.merge_asof with
direction="backward" (analyze_quotes.py lines 333-339): among the
disclosure rows, return the last one in list order whose date does not
exceed the quote date, or none when no disclosure date qualifies.  On a
date-sorted disclosure list this is the row with the greatest
disclosure date not exceeding the quote date. -/
def asofBackward {α : Type} (fins : List (Int × α)) (d : Int) : Option (Int × α) :=
  match fins with
  | [] => none
  | f :: rest =>
    match asofBackward rest d with
    | some g => some g
    | none => if f.1 ≤ d then some f else none

/-- The merge_asof step of StockDataProcessor._merge_fins_and_stock
(analyze_quotes.py lines 326-339), before any gap filling: sort the
disclosure rows and the quote dates ascending, then attach to each
quote date the backward as-of disclosure. -/
def mergeAsof {α : Type} (quotes : List Int) (fins : List (Int × α)) :
    List (Int × Option (Int × α)) :=
  let fs := sortByDate Prod.fst fins
  let qs := sortByDate id quotes
  qs.map fun q => (q, asofBackward fs q)

/-- Forward fill with a running last-seen value, the per-column core of
pandas.DataFrame.ffill (analyze_quotes.py line 342). -/
def ffillFrom {β : Type} (last : Option β) : List (Option β) → List (Option β)
  | [] => []
  | x :: rest =>
    match x with
    | some v => some v :: ffillFrom (some v) rest
    | none => last :: ffillFrom last rest

/-- Per-column pandas ffill: each missing cell takes the nearest earlier
present value, if any. -/
def ffillCol {β : Type} (xs : List (Option β)) : List (Option β) :=
  ffillFrom none xs

/-- Per-column pandas bfill (analyze_quotes.py line 344): each missing
cell takes the nearest later present value, if any. -/
def bfillCol {β : Type} (xs : List (Option β)) : List (Option β) :=
  (ffillFrom none xs.reverse).reverse

/-- The gap-filling stage of StockDataProcessor._merge_fins_and_stock
(analyze_quotes.py lines 341-344): df.ffill followed by df.bfill, both
applied in place to the whole merged frame, hence to every column of it
- the price columns coming from the quote side included. -/
def applyFill (df : Frame) : Frame :=
  df.map fun c => (c.1, bfillCol (ffillCol c.2))

/-- Result of StockDataProcessor._merge_fins_and_stock: either the
quote series returned unchanged (the empty-disclosure path, lines
314-317) or a merged, gap-filled series. -/
inductive MergeOutcome (α : Type) where
  | quotesOnly (quotes : List Int) : MergeOutcome α
  | merged (rows : List (Int × Option (Int × α))) : MergeOutcome α

/-- StockDataProcessor._merge_fins_and_stock (analyze_quotes.py lines
306-346) at the level of dates and attached disclosures: filter the
disclosure table to the requested code; when nothing remains log a
warning and return the quote series unchanged; otherwise perform the
backward as-of merge and fill the attached-disclosure column forward
then backward. -/
def merge_fins_and_stock {α : Type} (code : String)
    (dfFins : List (String × Int × α)) (dfQuotes : List Int) : MergeOutcome α :=
  let extracted := (dfFins.filter fun f => f.1 == code).map fun f => f.2
  if extracted.isEmpty then
    MergeOutcome.quotesOnly dfQuotes
  else
    let rows := mergeAsof dfQuotes extracted
    MergeOutcome.merged
      ((rows.map Prod.fst).zip (bfillCol (ffillCol (rows.map Prod.snd))))

/-- The per-code loop of StockDataProcessor.process_quotes
(analyze_quotes.py lines 197-222): run the single-stock analysis on
each requested code in order; a code whose analysis fails (returns
none, the except-path of _analyze_single_stock) is skipped, a
successful result is appended. -/
def process_quotes {α : Type} (analyzeSingleStock : String → Option α)
    (codes : List String) : List α :=
  codes.foldl
    (fun results code =>
      match analyzeSingleStock code with
      | some m => results ++ [m]
      | none => results)
    []

end AnalyzeQuotes

namespace AnalyzeQuotes

lemma asofBackward_eq_some {α : Type} {fins : List (Int × α)} {d : Int} {f : Int × α}
    (h : asofBackward fins d = some f) : f ∈ fins ∧ f.1 ≤ d := by
  induction fins with
  | nil => simp [asofBackward] at h
  | cons a rest ih =>
    rw [asofBackward] at h
    cases hrec : asofBackward rest d with
    | some g =>
      rw [hrec] at h
      cases h
      obtain ⟨hmem, hle⟩ := ih hrec
      exact ⟨List.mem_cons_of_mem _ hmem, hle⟩
    | none =>
      rw [hrec] at h
      split_ifs at h with hle
      · cases h
        exact ⟨List.mem_cons_self _ _, hle⟩

lemma asofBackward_max {α : Type} {fins : List (Int × α)} {d : Int} {g : Int × α}
    (hs : fins.Pairwise fun a b => a.1 ≤ b.1) (hg : g ∈ fins) (hgd : g.1 ≤ d) :
    ∃ f, asofBackward fins d = some f ∧ g.1 ≤ f.1 := by
  induction fins with
  | nil => cases hg
  | cons a rest ih =>
    rw [List.pairwise_cons] at hs
    obtain ⟨ha, hrest⟩ := hs
    rcases List.mem_cons.mp hg with hga | hgr
    · subst hga
      cases hrec : asofBackward rest d with
      | some f =>
        obtain ⟨hfmem, _⟩ := asofBackward_eq_some hrec
        exact ⟨f, by rw [asofBackward, hrec], ha f hfmem⟩
      | none =>
        refine ⟨g, ?_, le_refl _⟩
        rw [asofBackward, hrec, if_pos hgd]
    · obtain ⟨f, hf, hgf⟩ := ih hrest hgr
      exact ⟨f, by rw [asofBackward, hf], hgf⟩

lemma sortByDate_pairwise {α : Type} (key : α → Int) (l : List α) :
    (sortByDate key l).Pairwise fun a b => key a ≤ key b := by
  haveI htot : IsTotal α fun a b => key a ≤ key b := ⟨fun a b => le_total (key a) (key b)⟩
  haveI htrans : IsTrans α fun a b => key a ≤ key b :=
    ⟨fun a b c hab hbc => le_trans hab hbc⟩
  exact List.sorted_insertionSort _ l

lemma sortByDate_mem {α : Type} (key : α → Int) (l : List α) (x : α) :
    x ∈ sortByDate key l ↔ x ∈ l :=
  (List.perm_insertionSort _ l).mem_iff

/-- C3: in the series produced by the backward as-of join, before any
gap filling, every attached disclosure has disclosure date at most the
quote date (no lookahead), belongs to the disclosure series, and its
date is maximal among the disclosure dates not exceeding the quote
date. -/
theorem merge_asof_attaches_latest_disclosure {α : Type}
    (quotes : List Int) (fins : List (Int × α)) (d : Int) (f : Int × α)
    (hmem : (d, some f) ∈ mergeAsof quotes fins) :
    f ∈ fins ∧ f.1 ≤ d ∧ ∀ g ∈ fins, g.1 ≤ d → g.1 ≤ f.1 := by
  obtain ⟨q, _, heq⟩ := List.mem_map.mp hmem
  rw [Prod.mk.injEq] at heq
  obtain ⟨hqd, hasof⟩ := heq
  subst hqd
  obtain ⟨hfmem, hfle⟩ := asofBackward_eq_some hasof
  refine ⟨(sortByDate_mem Prod.fst fins f).mp hfmem, hfle, fun g hgmem hgle => ?_⟩
  obtain ⟨f2, hf2, hgf2⟩ := asofBackward_max (sortByDate_pairwise Prod.fst fins)
    ((sortByDate_mem Prod.fst fins g).mpr hgmem) hgle
  rw [hasof] at hf2
  cases hf2
  exact hgf2

/-- Witness for C3: with quote date 10 and disclosures dated 3, 7 and
12, the join attaches the disclosure dated 7, which is in the series,
does not exceed 10, and dominates every disclosure date at most 10. -/
theorem merge_asof_attaches_latest_disclosure_witness :
    ((7 : Int), (1 : Int)) ∈ [((3 : Int), (0 : Int)), (7, 1), (12, 2)] ∧
    (7 : Int) ≤ 10 ∧
    ∀ g ∈ [((3 : Int), (0 : Int)), (7, 1), (12, 2)], g.1 ≤ 10 → g.1 ≤ 7 :=
  merge_asof_attaches_latest_disclosure [10] [(3, 0), (7, 1), (12, 2)] 10 (7, 1)
    (by decide)

end AnalyzeQuotes

namespace AnalyzeQuotes

lemma ffillFrom_of_all_isSome {β : Type} {xs : List (Option β)}
    (h : ∀ x ∈ xs, x.isSome = true) (last : Option β) : ffillFrom last xs = xs := by
  induction xs generalizing last with
  | nil => rfl
  | cons a rest ih =>
    cases a with
    | none =>
      have := h none (List.mem_cons_self _ _)
      simp [Option.isSome] at this
    | some v =>
      rw [ffillFrom]
      rw [ih fun x hx => h x (List.mem_cons_of_mem _ hx)]

lemma ffillCol_of_all_isSome {β : Type} {xs : List (Option β)}
    (h : ∀ x ∈ xs, x.isSome = true) : ffillCol xs = xs :=
  ffillFrom_of_all_isSome h none

lemma bfillCol_of_all_isSome {β : Type} {xs : List (Option β)}
    (h : ∀ x ∈ xs, x.isSome = true) : bfillCol xs = xs := by
  rw [bfillCol, ffillFrom_of_all_isSome (fun x hx => h x (List.mem_reverse.mp hx)) none,
    List.reverse_reverse]

/-- C4 counterexample: the gap-filling stage does not leave price
columns untouched.  On a merged frame whose Close column (a price
column copied from the quote side) is missing its second value, the
forward fill replaces that missing value with the preceding close, so
the column is not the column of quote values and a missing price value
has been filled. -/
theorem fill_modifies_price_column_counterexample :
    applyFill [("Close", [some (1 : ℚ), none])] = [("Close", [some 1, some 1])] ∧
    ([some (1 : ℚ), some 1] : Col) ≠ [some (1 : ℚ), none] := by
  constructor
  · rfl
  · intro h
    cases h

/-- C4 amended: the forward-then-backward fill of
_merge_fins_and_stock is applied to every column of the merged frame,
price columns included; a frame none of whose cells is missing - in
particular its price columns - is returned unchanged, and a present
price value is never altered, but a missing price value is filled from
a neighboring row rather than preserved. -/
theorem fill_preserves_fully_present_frame (df : Frame)
    (h : ∀ c ∈ df, ∀ x ∈ c.2, x.isSome = true) : applyFill df = df := by
  induction df with
  | nil => rfl
  | cons c rest ih =>
    rw [applyFill, List.map_cons]
    have hc := h c (List.mem_cons_self _ _)
    rw [ffillCol_of_all_isSome hc, bfillCol_of_all_isSome hc]
    rw [show ((c.1, c.2) : String × Col) = c from rfl]
    have hrest : applyFill rest = rest := ih fun d hd => h d (List.mem_cons_of_mem _ hd)
    rw [applyFill] at hrest
    rw [hrest]

/-- Witness for C4 amended: a one-column frame with no missing cell
passes through the fill stage unchanged. -/
theorem fill_preserves_fully_present_frame_witness :
    applyFill [("Close", [some (2 : ℚ), some 3])] = [("Close", [some 2, some 3])] :=
  fill_preserves_fully_present_frame [("Close", [some 2, some 3])] (by decide)

/-- C5 counterexample: for a security code whose disclosure series is
empty, _merge_fins_and_stock does not raise any error; it returns the
quote series unchanged.  With no disclosure rows at all and quote dates
1 and 2, the result is the quotes-only outcome. -/
theorem empty_disclosures_no_error_counterexample :
    merge_fins_and_stock "1301" ([] : List (String × Int × Int)) [1, 2] =
      MergeOutcome.quotesOnly [1, 2] := rfl

/-- C5 amended: whenever the disclosure table contains no row for the
requested security code - in particular whenever the whole disclosure
series is empty - _merge_fins_and_stock logs a warning and returns the
quote series unchanged instead of raising; the merge path itself has no
error outcome (no DataError type exists in the repository). -/
theorem empty_disclosures_returns_quotes {α : Type} (code : String)
    (dfFins : List (String × Int × α)) (dfQuotes : List Int)
    (h : dfFins.filter (fun f => f.1 == code) = []) :
    merge_fins_and_stock code dfFins dfQuotes = MergeOutcome.quotesOnly dfQuotes := by
  rw [merge_fins_and_stock]
  simp [h]

/-- Witness for C5 amended: the disclosure table has one row for
another code and none for the requested code 1301, so the aligner
returns the quote series unchanged. -/
theorem empty_disclosures_returns_quotes_witness :
    merge_fins_and_stock "1301" [("9999", ((5 : Int), (7 : Int)))] [1] =
      MergeOutcome.quotesOnly [1] :=
  empty_disclosures_returns_quotes "1301" [("9999", (5, 7))] [1] (by decide)

lemma process_quotes_foldl {α : Type} (f : String → Option α)
    (codes : List String) (acc : List α) :
    codes.foldl
      (fun results code =>
        match f code with
        | some m => results ++ [m]
        | none => results)
      acc = acc ++ codes.filterMap f := by
  induction codes generalizing acc with
  | nil => simp
  | cons c rest ih =>
    rw [List.foldl_cons, List.filterMap_cons]
    cases hf : f c with
    | none => rw [ih]
    | some m => rw [ih, List.append_assoc]; rfl

/-- C6: the batch loop returns exactly the successful analyses of the
requested codes, in request order, with failed codes simply absent:
the loop of process_quotes computes List.filterMap of the single-stock
analysis, so one code failing (returning none along the except path)
never aborts the batch and never changes any other code contribution. -/
theorem process_quotes_eq_filterMap {α : Type} (analyzeSingleStock : String → Option α)
    (codes : List String) :
    process_quotes analyzeSingleStock codes = codes.filterMap analyzeSingleStock := by
  rw [process_quotes, process_quotes_foldl]
  rfl

end AnalyzeQuotes

namespace AnalyzeQuotes

/-- Column lookup, as df[name] on a frame that has the column; a frame
without the column (a KeyError in pandas) yields the empty column,
a case no settled statement exercises. -/
def getCol (df : Frame) (name : String) : Col :=
  match df.find? (fun c => c.1 == name) with
  | some c => c.2
  | none => []

/-- Whether the frame has a column of the given name. -/
def hasColB (df : Frame) (name : String) : Bool :=
  df.any fun c => c.1 == name

/-- Column assignment, as df[name] = col: replace the column in place
when it exists, append it as the last column otherwise. -/
def setCol (df : Frame) (name : String) (col : Col) : Frame :=
  if hasColB df name then df.map fun c => if c.1 == name then (name, col) else c
  else df ++ [(name, col)]

/-- Column removal, as df.drop(columns=[name]). -/
def dropCol (df : Frame) (name : String) : Frame :=
  df.filter fun c => !(c.1 == name)

/-- The cell selected by iloc[-1] on a column: its last cell, or the
undefined marker on an empty column (pandas would raise there; the
settled statements only use nonempty series). -/
def ilocLast (c : Col) : Val :=
  match c.getLast? with
  | some v => v
  | none => none

/-- Element-wise combination of three columns of equal length. -/
def colMap3 (f : Val → Val → Val → Val) : Col → Col → Col → Col
  | a :: as, b :: bs, c :: cs => f a b c :: colMap3 f as bs cs
  | _, _, _ => []

/-- Trailing rolling mean of a column, as Series.rolling(window=w,
min_periods=minp).mean(): at row i the window holds the cells at
indices max 0 (i+1-w) through i; the result is the mean of the present
cells of the window when at least minp of them are present, and the
missing marker otherwise.  When the rolling call gives no min_periods,
pandas defaults minp to the window size w. -/
def rollingMeanCol (w minp : Nat) (xs : Col) : Col :=
  (List.range xs.length).map fun i =>
    let vals := ((xs.take (i + 1)).drop (i + 1 - w)).filterMap id
    if minp ≤ vals.length then some (vals.sum / (vals.length : ℚ)) else none

/-- IndicatorCalculator._set_AdjustmentBPS_value (lines 60-64): Equity
divided by the series-wide latest AverageNumberOfShares. -/
def set_AdjustmentBPS_value (df : Frame) : Frame :=
  let latestShares := ilocLast (getCol df "AverageNumberOfShares")
  setCol df "AdjustmentBPS" ((getCol df "Equity").map fun e => optDiv e latestShares)

/-- IndicatorCalculator._set_PER_value (lines 66-72): AdjustmentClose
divided by ForecastProfit over the latest share count. -/
def set_PER_value (df : Frame) : Frame :=
  let latestShares := ilocLast (getCol df "AverageNumberOfShares")
  setCol df "PER"
    (List.zipWith (fun c fp => optDiv c (optDiv fp latestShares))
      (getCol df "AdjustmentClose") (getCol df "ForecastProfit"))

/-- IndicatorCalculator._set_PBR_value (lines 74-78): AdjustmentClose
divided by Equity over the latest share count. -/
def set_PBR_value (df : Frame) : Frame :=
  let latestShares := ilocLast (getCol df "AverageNumberOfShares")
  setCol df "PBR"
    (List.zipWith (fun c e => optDiv c (optDiv e latestShares))
      (getCol df "AdjustmentClose") (getCol df "Equity"))

/-- IndicatorCalculator._set_ROE_value (lines 80-83). -/
def set_ROE_value (df : Frame) : Frame :=
  setCol df "ROE"
    (List.zipWith optDiv (getCol df "ForecastProfit") (getCol df "Equity"))

/-- IndicatorCalculator._set_ROA_value (lines 85-88). -/
def set_ROA_value (df : Frame) : Frame :=
  setCol df "ROA"
    (List.zipWith optDiv (getCol df "ForecastProfit") (getCol df "TotalAssets"))

/-- IndicatorCalculator._set_market_cap (lines 90-93): per-row
AverageNumberOfShares, unlike the EPS and BPS computations. -/
def set_market_cap (df : Frame) : Frame :=
  setCol df "MarketCap"
    (List.zipWith optMul (getCol df "AdjustmentClose") (getCol df "AverageNumberOfShares"))

/-- IndicatorCalculator._set_smoothed_volume (lines 176-181): rolling
mean of Volume with window 20 and no min_periods argument, so pandas
defaults min_periods to the window size. -/
def set_smoothed_volume (df : Frame) : Frame :=
  setCol df "Smoothed_volume" (rollingMeanCol 20 20 (getCol df "Volume"))

/-- IndicatorCalculator._set_200days_moving_average (lines 171-174). -/
def set_200days_moving_average (df : Frame) : Frame :=
  setCol df "SMA_200" (rollingMeanCol 200 200 (getCol df "AdjustmentClose"))

/-- IndicatorCalculator._limit_ROA_value (lines 95-100): the ROA_Capped
column.  Note that no later step of the source reads this column. -/
def limit_ROA_value (df : Frame) : Frame :=
  setCol df "ROA_Capped" ((getCol df "ROA").map roaCapRow)

/-- IndicatorCalculator._set_discount_rate (lines 102-114). -/
def set_discount_rate (df : Frame) : Frame :=
  setCol df "DiscountRate" ((getCol df "EquityToAssetRatio").map discountRateRow)

/-- IndicatorCalculator._set_risk_assessment_rate (lines 131-144). -/
def set_risk_assessment_rate (df : Frame) : Frame :=
  setCol df "RiskAssessmentRate" ((getCol df "PBR").map riskAssessmentRateRow)

/-- The in-place part of
IndicatorCalculator._set_financial_leverage_adjustment (lines 116-127):
a TempValue column holds EquityToAssetRatio + 0.33, the np.select clamp
rewrites it, and FinancialLeverageAdjustment holds its reciprocal.
These three column assignments mutate the frame object the method
received; the TempValue drop of line 128 is not part of this
definition because pandas drop without inplace returns a fresh copy,
leaving the argument object in the state this definition describes. -/
def set_financial_leverage_adjustment_inplace (df : Frame) : Frame :=
  let df1 := setCol df "TempValue"
    ((getCol df "EquityToAssetRatio").map fun r => optAdd r (some 0.33))
  let df2 := setCol df1 "TempValue" ((getCol df1 "TempValue").map clampTempValueRow)
  setCol df2 "FinancialLeverageAdjustment"
    ((getCol df2 "TempValue").map (optDiv (some 1)))

/-- IndicatorCalculator._set_financial_leverage_adjustment (lines
116-129): the in-place column assignments followed by
df.drop(columns=["TempValue"]) at line 128, which returns a fresh frame
without TempValue; the method returns that copy while its argument
object keeps the TempValue and FinancialLeverageAdjustment columns. -/
def set_financial_leverage_adjustment (df : Frame) : Frame :=
  dropCol (set_financial_leverage_adjustment_inplace df) "TempValue"

/-- IndicatorCalculator._set_asset_value (lines 146-149). -/
def set_asset_value (df : Frame) : Frame :=
  setCol df "AssetValue"
    (List.zipWith optMul (getCol df "AdjustmentBPS") (getCol df "DiscountRate"))

/-- IndicatorCalculator._set_business_value (lines 151-161), using the
series-wide latest AverageNumberOfShares and the raw ROA column. -/
def set_business_value (df : Frame) : Frame :=
  let latestShares := ilocLast (getCol df "AverageNumberOfShares")
  setCol df "BusinessValue"
    (colMap3 (businessValueRow latestShares)
      (getCol df "ForecastProfit") (getCol df "ROA")
      (getCol df "FinancialLeverageAdjustment"))

/-- IndicatorCalculator._set_theoretical_stock_price (lines 163-169). -/
def set_theoretical_stock_price (df : Frame) : Frame :=
  let df1 := setCol df "TheoreticalStockPrice"
    (colMap3 (fun bv av r => optMul (optAdd bv av) r)
      (getCol df "BusinessValue") (getCol df "AssetValue")
      (getCol df "RiskAssessmentRate"))
  setCol df1 "TheoreticalStockPriceUpperLimit"
    ((getCol df1 "TheoreticalStockPrice").map fun x => optMul x (some 2))

/-- IndicatorCalculator.calculate_all_indicators (lines 37-47).  In the
source every helper assigns its new column on the very frame object it
received and returns that object, so the call mutates its argument in
place and returns it. -/
def calculate_all_indicators (df : Frame) : Frame :=
  set_200days_moving_average (set_smoothed_volume (set_market_cap (set_ROA_value
    (set_ROE_value (set_PBR_value (set_PER_value (set_AdjustmentBPS_value df)))))))

/-- IndicatorCalculator.calculate_theoretical_price (lines 49-58), with
the same in-place behavior as calculate_all_indicators. -/
def calculate_theoretical_price (df : Frame) : Frame :=
  set_theoretical_stock_price (set_business_value (set_asset_value
    (set_financial_leverage_adjustment (set_risk_assessment_rate
      (limit_ROA_value (set_discount_rate df))))))

/-- The StockMetrics dataclass (analyze_quotes.py lines 22-31), with
the analysis date as an integer. -/
structure StockMetricsObj where
  code : String
  company_name : String
  df_merged : Frame
  df_calculated : Frame
  df_result : Frame
  analysis_date : Int

/-- The frame-assembly part of StockDataProcessor._analyze_single_stock
(lines 244-263).  Pandas column assignment mutates the frame object in
place and every calculator helper returns the object it received, with
one exception: the TempValue drop inside
_set_financial_leverage_adjustment (line 128) returns a fresh copy.
Hence the object bound to both df_merged and df_calculated is one and
the same frame, mutated up to and including the
FinancialLeverageAdjustment assignment (so it carries the indicator
columns, DiscountRate, ROA_Capped, RiskAssessmentRate, TempValue and
FinancialLeverageAdjustment), while df_result is the post-drop copy
that alone receives the AssetValue, BusinessValue and
theoretical-price columns and lacks TempValue. -/
def analyze_single_stock (code companyName : String) (analysisDate : Int)
    (dfMerged : Frame) : StockMetricsObj :=
  let dfShared := set_financial_leverage_adjustment_inplace
    (set_risk_assessment_rate (limit_ROA_value (set_discount_rate
      (calculate_all_indicators dfMerged))))
  let dfResult := set_theoretical_stock_price (set_business_value (set_asset_value
    (dropCol dfShared "TempValue")))
  { code := code
    company_name := companyName
    df_merged := dfShared
    df_calculated := dfShared
    df_result := dfResult
    analysis_date := analysisDate }

end AnalyzeQuotes

namespace AnalyzeQuotes

lemma length_filterMap_id_all_isSome {β : Type} {l : List (Option β)}
    (h : ∀ x ∈ l, x.isSome = true) : (l.filterMap id).length = l.length := by
  induction l with
  | nil => rfl
  | cons a rest ih =>
    cases a with
    | none => simpa using h none (List.mem_cons_self _ _)
    | some v =>
      have ih2 := ih fun x hx => h x (List.mem_cons_of_mem _ hx)
      simp [List.filterMap_cons, ih2]

/-- C7 counterexample: the source calls rolling(window=20).mean() with
no min_periods, so pandas defaults min_periods to 20 and the first 19
rows are undefined.  On a one-row volume column the Smoothed_volume
column holds the missing marker, while the rolling mean the claim
describes (min_periods = 1) would hold the volume itself. -/
theorem smoothed_volume_min_periods_counterexample :
    getCol (set_smoothed_volume [("Volume", [some (10 : ℚ)])]) "Smoothed_volume" =
      [none] ∧
    rollingMeanCol 20 1 [some (10 : ℚ)] = [some 10] ∧
    ([none] : Col) ≠ [some (10 : ℚ)] := by
  refine ⟨by decide, ?_, by decide⟩
  norm_num [rollingMeanCol, List.range_succ, List.filterMap_cons]

/-- C7 amended: the smoothed volume is the trailing 20-day rolling mean
of volume with the pandas default minimum-periods equal to the window:
each of the first 19 rows has an undefined smoothed volume, and from
the 20th row on, when the volumes are present, it equals the mean of
the last 20 volumes. -/
theorem smoothed_volume_defined_from_row_20 (xs : Col) (i : Nat) (hi : i < xs.length) :
    (i < 19 → (rollingMeanCol 20 20 xs)[i]? = some none) ∧
    (19 ≤ i → (∀ x ∈ xs, x.isSome = true) →
      (rollingMeanCol 20 20 xs)[i]? =
        some (some ((((xs.take (i + 1)).drop (i + 1 - 20)).filterMap id).sum / 20))) := by
  have hentry : (rollingMeanCol 20 20 xs)[i]? =
      some (if 20 ≤ (((xs.take (i + 1)).drop (i + 1 - 20)).filterMap id).length
            then some ((((xs.take (i + 1)).drop (i + 1 - 20)).filterMap id).sum /
              (((((xs.take (i + 1)).drop (i + 1 - 20)).filterMap id).length : ℚ)))
            else none) := by
    rw [rollingMeanCol, List.getElem?_map, List.getElem?_range hi]
    rfl
  constructor
  · intro h19
    rw [hentry]
    congr 1
    rw [if_neg]
    intro hlen
    have h1 : (((xs.take (i + 1)).drop (i + 1 - 20)).filterMap id).length ≤
        ((xs.take (i + 1)).drop (i + 1 - 20)).length := List.length_filterMap_le _ _
    have h2 : ((xs.take (i + 1)).drop (i + 1 - 20)).length ≤ (xs.take (i + 1)).length := by
      rw [List.length_drop]
      omega
    have h3 : (xs.take (i + 1)).length ≤ i + 1 := by
      rw [List.length_take]
      omega
    omega
  · intro h19 hall
    rw [hentry]
    have hmem : ∀ x ∈ (xs.take (i + 1)).drop (i + 1 - 20), x.isSome = true := fun x hx =>
      hall x (List.mem_of_mem_take (List.mem_of_mem_drop hx))
    have hlen : (((xs.take (i + 1)).drop (i + 1 - 20)).filterMap id).length = 20 := by
      rw [length_filterMap_id_all_isSome hmem, List.length_drop, List.length_take]
      omega
    rw [if_pos (le_of_eq hlen.symm), hlen]
    norm_num

/-- Witness for C7 amended: on twenty present volumes equal to 2, the
20th row of the smoothed-volume column is defined and equals 2. -/
theorem smoothed_volume_defined_from_row_20_witness :
    (rollingMeanCol 20 20 (List.replicate 20 (some (2 : ℚ))))[19]? = some (some 2) := by
  have h := (smoothed_volume_defined_from_row_20 (List.replicate 20 (some (2 : ℚ))) 19
    (by decide)).2 (by decide) (by decide)
  rw [h]
  norm_num [List.replicate, List.filterMap_cons]

/-- A one-row merged frame with the input columns the indicator and
valuation pipeline reads, used to exercise analyze_single_stock on
concrete data. -/
def testMerged : Frame :=
  [("AdjustmentClose", [some 100]), ("Volume", [some 1000]), ("Equity", [some 500]),
   ("ForecastProfit", [some 100]), ("TotalAssets", [some 1000]),
   ("AverageNumberOfShares", [some 10]), ("EquityToAssetRatio", [some 0.5])]

lemma any_name_map_setCol (df : Frame) (n m : String) (col : Col) :
    ((df.map fun c => if c.1 == n then (n, col) else c).any fun c => c.1 == m) =
      (df.any fun c => c.1 == m) := by
  induction df with
  | nil => rfl
  | cons c rest ih =>
    rw [List.map_cons, List.any_cons, List.any_cons, ih]
    by_cases hc : (c.1 == n) = true
    · rw [if_pos hc]
      have hcn : c.1 = n := by simpa using hc
      simp [hcn]
    · rw [if_neg hc]

lemma hasColB_setCol_self (df : Frame) (n : String) (col : Col) :
    hasColB (setCol df n col) n = true := by
  rw [setCol]
  split_ifs with h
  · rw [hasColB] at h ⊢
    rw [any_name_map_setCol]
    exact h
  · rw [hasColB, List.any_append]
    simp

lemma hasColB_setCol_ne (df : Frame) (n m : String) (col : Col) (hnm : m ≠ n) :
    hasColB (setCol df n col) m = hasColB df m := by
  rw [setCol]
  split_ifs with h
  · rw [hasColB, hasColB, any_name_map_setCol]
  · rw [hasColB, hasColB, List.any_append]
    have hfalse : ((n, col).1 == m) = false :=
      beq_eq_false_iff_ne.mpr fun he => hnm he.symm
    simp [hfalse]

lemma hasColB_dropCol_self (df : Frame) (n : String) :
    hasColB (dropCol df n) n = false := by
  rw [dropCol, hasColB]
  induction df with
  | nil => rfl
  | cons c rest ih =>
    rw [List.filter_cons]
    by_cases hc : (c.1 == n) = true
    · rw [if_neg (by simp [hc])]
      exact ih
    · rw [if_pos (by simp [hc]), List.any_cons]
      simp only [hc, Bool.false_or]
      exact ih

lemma hasColB_flaInplace_TempValue (df : Frame) :
    hasColB (set_financial_leverage_adjustment_inplace df) "TempValue" = true := by
  simp only [set_financial_leverage_adjustment_inplace]
  rw [hasColB_setCol_ne _ "FinancialLeverageAdjustment" "TempValue" _ (by decide)]
  exact hasColB_setCol_self _ _ _

lemma hasColB_postDrop_TempValue (df : Frame) :
    hasColB (set_theoretical_stock_price (set_business_value (set_asset_value
      (dropCol df "TempValue")))) "TempValue" = false := by
  simp only [set_theoretical_stock_price, set_business_value, set_asset_value]
  rw [hasColB_setCol_ne _ "TheoreticalStockPriceUpperLimit" "TempValue" _ (by decide)]
  rw [hasColB_setCol_ne _ "TheoreticalStockPrice" "TempValue" _ (by decide)]
  rw [hasColB_setCol_ne _ "BusinessValue" "TempValue" _ (by decide)]
  rw [hasColB_setCol_ne _ "AssetValue" "TempValue" _ (by decide)]
  exact hasColB_dropCol_self _ _

/-- C9 counterexample: the three frame fields of the constructed
StockMetrics are not three differing, progressively-augmented series.
Every calculator helper assigns its columns on the frame object it
received, so df_merged and df_calculated are one and the same frame -
they are equal, and that frame already carries the PER indicator
column and the RiskAssessmentRate valuation column, contradicting the
claim that the merged series has no indicator or valuation columns,
that the series with indicators has no valuation columns, and that the
three series differ from one another.  Only the TempValue drop inside
the leverage step creates a fresh frame, so the shared frame lacks the
TheoreticalStockPrice column, which df_result alone carries. -/
theorem stockmetrics_series_not_progressive_counterexample :
    (analyze_single_stock "1301" "TestCo" 0 testMerged).df_merged =
      (analyze_single_stock "1301" "TestCo" 0 testMerged).df_calculated ∧
    hasColB (analyze_single_stock "1301" "TestCo" 0 testMerged).df_merged "PER" = true ∧
    hasColB (analyze_single_stock "1301" "TestCo" 0 testMerged).df_calculated
      "RiskAssessmentRate" = true ∧
    hasColB (analyze_single_stock "1301" "TestCo" 0 testMerged).df_merged
      "TheoreticalStockPrice" = false ∧
    hasColB (analyze_single_stock "1301" "TestCo" 0 testMerged).df_result
      "TheoreticalStockPrice" = true :=
  ⟨rfl, by decide, by decide, by decide, by decide⟩

/-- C9 amended: the StockMetrics holds two distinct frames, not three
differing series.  The object bound to df_merged and df_calculated is
one and the same frame - the merged series mutated in place through
the indicator steps, DiscountRate, ROA_Capped, RiskAssessmentRate and
the leverage assignments, so it still carries TempValue - while
df_result is the fresh copy created by the TempValue drop, further
augmented with the AssetValue, BusinessValue and theoretical-price
columns, and it lacks TempValue, so df_result always differs from
df_merged.  The object itself is a plain value and is not changed
after construction (every consumer in the repository copies the frames
it reads). -/
theorem stockmetrics_shared_and_result_frames (code companyName : String)
    (analysisDate : Int) (dfMerged : Frame) :
    (analyze_single_stock code companyName analysisDate dfMerged).df_merged =
      (analyze_single_stock code companyName analysisDate dfMerged).df_calculated ∧
    (analyze_single_stock code companyName analysisDate dfMerged).df_merged =
      set_financial_leverage_adjustment_inplace (set_risk_assessment_rate
        (limit_ROA_value (set_discount_rate (calculate_all_indicators dfMerged)))) ∧
    (analyze_single_stock code companyName analysisDate dfMerged).df_result =
      set_theoretical_stock_price (set_business_value (set_asset_value (dropCol
        ((analyze_single_stock code companyName analysisDate dfMerged).df_merged)
        "TempValue"))) ∧
    hasColB (analyze_single_stock code companyName analysisDate dfMerged).df_merged
      "TempValue" = true ∧
    hasColB (analyze_single_stock code companyName analysisDate dfMerged).df_result
      "TempValue" = false ∧
    (analyze_single_stock code companyName analysisDate dfMerged).df_merged ≠
      (analyze_single_stock code companyName analysisDate dfMerged).df_result := by
  simp only [analyze_single_stock]
  refine ⟨trivial, trivial, trivial, hasColB_flaInplace_TempValue _,
    hasColB_postDrop_TempValue _, fun h => ?_⟩
  have h1 := hasColB_flaInplace_TempValue (set_risk_assessment_rate
    (limit_ROA_value (set_discount_rate (calculate_all_indicators dfMerged))))
  have h2 := hasColB_postDrop_TempValue (set_financial_leverage_adjustment_inplace
    (set_risk_assessment_rate (limit_ROA_value (set_discount_rate
      (calculate_all_indicators dfMerged)))))
  rw [h] at h1
  rw [h1] at h2
  cases h2

end AnalyzeQuotes
